import Mathlib

/-!
Verification of the ClawSuite deployment/runtime lifecycle and
health-verification subsystem (the ops shell scripts) against its
natural-language specification.

Each operation of the scripts is shallowly embedded as an executable Lean
function over explicit state records.  Nondeterministic inputs of a script
run (which inspection tools are installed, whether a port is listening,
whether an `npm` step succeeds, which processes are alive) are collected in
environment records; one invocation of a script is a pure function from the
environment and the filesystem state it reads to an exit code and the
filesystem state it leaves behind.

Bash-level semantics that matter are modelled explicitly where they decide a
claim:
* all scripts run under `set -euo pipefail`; a function called in an `if`
  condition has its non-zero return statuses collapsed to "false", so
  `return 2` and `return 1` are indistinguishable to such a caller;
* the arithmetic command `((x++))` returns status 1 when the pre-increment
  value of `x` is 0 (the value of the expression is 0), and under `set -e`
  outside a condition context this terminates the (sub)shell; `set -e` is
  inherited by backgrounded subshells (`f &`);
* `set -e` is not inherited by command substitutions (`inherit_errexit` is
  off by default), so a failing pipeline inside `$(...)` does not abort the
  caller.
-/

namespace ClawSuite

/-! ### Health Evaluator: `scripts/ops/rollback.sh` (embedded `watchdog-health.sh`) -/

/-- The ambient facts one invocation of `watchdog-health.sh` observes: which
inspection tools are installed (`command -v`), whether the target port is
listening / reachable, whether an HTTP GET to the root path returns a
2xx/3xx code, and the PID that `lsof`/`ss` would report for the port. -/
structure HealthEnv where
  hasSs : Bool
  hasNetstat : Bool
  hasLsof : Bool
  hasNc : Bool
  hasTimeout : Bool
  hasCurl : Bool
  hasWget : Bool
  portListening : Bool
  httpOk : Bool
  pidOnPort : Option Nat
deriving Repr, DecidableEq

/-- Source function `check_port_listening` (watchdog-health.sh lines 244-267): tries `ss`,
`netstat`, `lsof`, then falls back to a connectivity probe with `nc` or
`timeout`+`/dev/tcp`; each branch returns 0 when the port is seen listening
(resp. the connection succeeds) and 1 otherwise.  When none of the five
tools is available it prints an error and returns 2. -/
def check_port_listening (e : HealthEnv) : Nat :=
  if e.hasSs then (if e.portListening then 0 else 1)
  else if e.hasNetstat then (if e.portListening then 0 else 1)
  else if e.hasLsof then (if e.portListening then 0 else 1)
  else if e.hasNc then (if e.portListening then 0 else 1)
  else if e.hasTimeout then (if e.portListening then 0 else 1)
  else 2

/-- Source function `check_http_health` (watchdog-health.sh lines 270-288): `curl` first,
then `wget`; 0 on a 2xx/3xx response, 1 on anything else, 2 when neither
tool is available. -/
def check_http_health (e : HealthEnv) : Nat :=
  if e.hasCurl then (if e.httpOk then 0 else 1)
  else if e.hasWget then (if e.httpOk then 0 else 1)
  else 2

/-- Source function `find_server_process` (watchdog-health.sh lines 291-307): recovers the
listening PID via `lsof` or `ss`; yields the empty string (here `none`) when
neither introspection tool is present. -/
def find_server_process (e : HealthEnv) : Option Nat :=
  if e.hasLsof then e.pidOnPort
  else if e.hasSs then e.pidOnPort
  else none

/-- The JSON object `perform_health_check` prints (and optionally persists
to the canonical state file): the HealthState snapshot of the spec. -/
structure HealthState where
  host : String
  port : Nat
  port_status : String
  http_status : String
  healthy : Bool
  pid : Option Nat
  error : Option String
deriving Repr, DecidableEq

/-- The observable outcome of one `watchdog-health.sh` run: the snapshot it
reports, the script's exit code, and whether the HTTP probe was issued at
all (instrumentation of the embedding; the probe is the call to
`check_http_health`). -/
structure HealthReport where
  state : HealthState
  exitCode : Nat
  httpProbed : Bool
deriving Repr, DecidableEq

/-- Source function `perform_health_check` (watchdog-health.sh lines 310-399).  The port
check runs first; the bash caller tests it with `if check_port_listening`,
so any non-zero return (1 = not listening, 2 = no tool) takes the
`not_listening` branch.  The HTTP probe runs only when the port check
returned 0.  The script's exit code is 0 iff `healthy` ended up true. -/
def perform_health_check (e : HealthEnv) (host : String) (port : Nat) : HealthReport :=
  if check_port_listening e = 0 then
    let pid := find_server_process e
    if check_http_health e = 0 then
      ⟨⟨host, port, "listening", "healthy", true, pid, none⟩, 0, true⟩
    else
      ⟨⟨host, port, "listening", "unhealthy", false, pid,
        some ("HTTP check failed on port " ++ toString port)⟩, 1, true⟩
  else
    ⟨⟨host, port, "not_listening", "unknown", false, none,
      some ("Port " ++ toString port ++ " is not listening")⟩, 1, false⟩

/-- An environment with none of the five port-inspection tools installed
(`ss`, `netstat`, `lsof`, `nc`, `timeout`); `curl` present is irrelevant
because the HTTP step is never reached. -/
def noToolEnv : HealthEnv :=
  ⟨false, false, false, false, false, true, false, false, false, none⟩

/-- All tools installed, port closed: the port test genuinely fails. -/
def portDownEnv : HealthEnv :=
  ⟨true, true, true, true, true, true, true, false, true, none⟩

/-! ### Deployment Transaction Journal: `src/unnamed/part_005` (deploy-with-rollback.sh) -/

/-- The `status` field of a journal entry. -/
inductive TxStatus where
  | started
  | success
  | failed
deriving Repr, DecidableEq

/-- One line of `transactions.jsonl`; the `details` payload never influences
control flow and is omitted. -/
structure Entry where
  tx_id : String
  action : String
  status : TxStatus
deriving Repr, DecidableEq

/-- Source function `get_last_successful_tx` (part_005 lines 166-173):
`tac transactions.jsonl | grep -m1 STATUS-SUCCESS | jq -r .tx_id`, i.e. the
tx id of the last journal line whose status is `success`, or nothing when
the journal has none. -/
def get_last_successful_tx (journal : List Entry) : Option String :=
  (journal.reverse.find? (fun en => en.status == TxStatus.success)).map Entry.tx_id

/-- The `current-state.json` singleton written by `update_current_state`. -/
structure CurrentState where
  status : String
  transaction_id : String
  version : String
deriving Repr, DecidableEq

/-- The filesystem state the deploy tool reads and writes: the journal
(append order, last entry most recent), the current-state pointer, the
backup directories (newest first, the order `ls -t` reports), and the
deploy lock file content. -/
structure DeployState where
  journal : List Entry
  current : Option CurrentState
  backups : List String
  lock : Option Nat
deriving Repr, DecidableEq

/-- Outcomes of the external steps one deploy/rollback run performs, plus
the ambient process facts: `alive p` is `kill -0 p`; `selfPid` is `$$`;
`buildOk` is `npm run build`; `startOk` is `start.sh --force` during a
deploy; `restartOk` is `start.sh --force` during a rollback; `healthOk` is
`check_health`; `appVersion` is `get_app_version`. -/
structure DeployEnv where
  alive : Nat → Bool
  selfPid : Nat
  buildOk : Bool
  startOk : Bool
  restartOk : Bool
  healthOk : Bool
  appVersion : String

/-- Source function `journal_append` (part_005 lines 133-147): append one entry. -/
def journal_append (s : DeployState) (tx action : String) (st : TxStatus) : DeployState :=
  { s with journal := s.journal ++ [⟨tx, action, st⟩] }

/-- Source function `update_current_state` (part_005 lines 150-163). -/
def update_current_state (s : DeployState) (status tx version : String) : DeployState :=
  { s with current := some ⟨status, tx, version⟩ }

/-- The deploy-lock test of `cmd_deploy` (part_005 lines 317-325): the lock
file exists and its recorded PID answers `kill -0`. -/
def lock_busy (env : DeployEnv) (s : DeployState) : Bool :=
  match s.lock with
  | some p => env.alive p
  | none => false

/-- The `trap` removing the lock file on exit, installed right after the
lock is taken: every exit path of `cmd_deploy` past that point removes the
lock. -/
def unlock (s : DeployState) : DeployState := { s with lock := none }

/-- Source function `cmd_rollback_internal` (part_005 lines 416-457): find the last
`status=success` journal entry; none → record a failed `rollback` entry;
otherwise stop the server, restore that transaction's backup (fails when
the backup directory is missing), restart, and on success record a
`rollback` success entry and point CurrentState at it as `rolled_back`. -/
def cmd_rollback_internal (env : DeployEnv) (s : DeployState) (currentTx : String) :
    Nat × DeployState :=
  match get_last_successful_tx s.journal with
  | none => (1, journal_append s currentTx "rollback" TxStatus.failed)
  | some lastGood =>
      if lastGood ∈ s.backups then
        if env.restartOk then
          (0, update_current_state (journal_append s currentTx "rollback" TxStatus.success)
            "rolled_back" lastGood env.appVersion)
        else (1, journal_append s currentTx "rollback" TxStatus.failed)
      else (1, journal_append s currentTx "rollback" TxStatus.failed)

/-- The `--pre-build` / `--no-health-check` options of `cmd_deploy`. -/
structure DeployOpts where
  preBuild : Bool
  healthCheck : Bool
deriving Repr, DecidableEq

/-- Successful tail of `cmd_deploy` (part_005 lines 395-409): record
`deploy_complete`, point CurrentState at the new transaction as `deployed`,
and prune the backups with `ls -t BACKUP_DIR | tail -n +6 | rm -rf`, i.e.
keep the 5 newest directories. -/
def deploy_commit (env : DeployEnv) (s : DeployState) (tx : String) : Nat × DeployState :=
  let s1 := journal_append s tx "deploy_complete" TxStatus.success
  let s2 := update_current_state s1 "deployed" tx env.appVersion
  (0, unlock { s2 with backups := s2.backups.take 5 })

/-- Source function `cmd_deploy` from the server-start phase on (part_005 lines 358-409):
stop the old server (best effort, no journal effect), start the new one,
then unless disabled run the health check; either failure records the
failed phase entry and runs the internal rollback before exiting 1. -/
def deploy_after_build (opts : DeployOpts) (env : DeployEnv) (s : DeployState) (tx : String) :
    Nat × DeployState :=
  let s1 := journal_append s tx "server_start" TxStatus.started
  if env.startOk then
    let s2 := journal_append s1 tx "server_start" TxStatus.success
    if opts.healthCheck then
      if env.healthOk then
        deploy_commit env (journal_append s2 tx "health_check" TxStatus.success) tx
      else
        let s3 := journal_append s2 tx "health_check" TxStatus.failed
        (1, unlock (cmd_rollback_internal env s3 tx).2)
    else deploy_commit env s2 tx
  else
    let s2 := journal_append s1 tx "server_start" TxStatus.failed
    (1, unlock (cmd_rollback_internal env s2 tx).2)

/-- Source function `cmd_deploy` (part_005 lines 284-410) for a fresh transaction id `tx`:
fail fast when another live process holds the deploy lock; otherwise take
the lock, journal `deploy_start`, set CurrentState to `deploying`, create
the backup (a new newest directory) and journal `backup_created` success;
with `--pre-build` run the build, rolling back and exiting 1 on failure;
then continue with server start and health check. -/
def cmd_deploy (opts : DeployOpts) (env : DeployEnv) (s : DeployState) (tx : String) :
    Nat × DeployState :=
  if lock_busy env s then (1, s)
  else
    let s0 := { s with lock := some env.selfPid }
    let s1 := journal_append s0 tx "deploy_start" TxStatus.started
    let s2 := update_current_state s1 "deploying" tx "unknown"
    let s3 := journal_append { s2 with backups := tx :: s2.backups } tx
      "backup_created" TxStatus.success
    if opts.preBuild then
      let s4 := journal_append s3 tx "build_start" TxStatus.started
      if env.buildOk then
        deploy_after_build opts env (journal_append s4 tx "build_complete" TxStatus.success) tx
      else
        let s5 := journal_append s4 tx "build_complete" TxStatus.failed
        (1, unlock (cmd_rollback_internal env s5 tx).2)
    else deploy_after_build opts env s3 tx

/-- The `--to` / `--force` options of `cmd_rollback`. -/
structure RollbackOpts where
  target : Option String
  force : Bool

/-- Source function `cmd_rollback` (part_005 lines 459-546), the user-facing manual
rollback, run as journal transaction `tx`.  Note: it neither checks nor
takes the deploy lock.  It journals `manual_rollback` started, resolves the
target (explicit `--to` or the last successful transaction), fails when
there is no target or no backup directory for it, otherwise stops the
server, restores the backup, restarts, verifies health unless `--force`,
and on success journals `manual_rollback` success and points CurrentState
at the target as `rolled_back`. -/
def cmd_rollback (opts : RollbackOpts) (env : DeployEnv) (s : DeployState) (tx : String) :
    Nat × DeployState :=
  let s1 := journal_append s tx "manual_rollback" TxStatus.started
  let target := match opts.target with
    | some t => some t
    | none => get_last_successful_tx s1.journal
  match target with
  | none => (1, journal_append s1 tx "manual_rollback" TxStatus.failed)
  | some rollbackTo =>
      if rollbackTo ∈ s1.backups then
        if env.restartOk then
          if opts.force = false ∧ env.healthOk = false then
            (1, journal_append s1 tx "manual_rollback" TxStatus.failed)
          else
            (0, update_current_state
              (journal_append s1 tx "manual_rollback" TxStatus.success)
              "rolled_back" rollbackTo env.appVersion)
        else (1, journal_append s1 tx "manual_rollback" TxStatus.failed)
      else (1, journal_append s1 tx "manual_rollback" TxStatus.failed)

/-- Iterated deploys: each element of `txs` drives one `cmd_deploy` run. -/
def deploy_seq (opts : DeployOpts) (env : DeployEnv) (txs : List String) (s : DeployState) :
    DeployState :=
  txs.foldl (fun st tx => (cmd_deploy opts env st tx).2) s

/-- Journal left by a fully successful deploy of transaction `tx-A`. -/
def prevJournal : List Entry :=
  [⟨"tx-A", "deploy_start", TxStatus.started⟩,
   ⟨"tx-A", "backup_created", TxStatus.success⟩,
   ⟨"tx-A", "server_start", TxStatus.started⟩,
   ⟨"tx-A", "server_start", TxStatus.success⟩,
   ⟨"tx-A", "health_check", TxStatus.success⟩,
   ⟨"tx-A", "deploy_complete", TxStatus.success⟩]

/-- State after that successful deploy of `tx-A`. -/
def stateAfterA : DeployState :=
  ⟨prevJournal, some ⟨"deployed", "tx-A", "1.0.0"⟩, ["tx-A"], none⟩

/-- Environment in which the server-start phase of a deploy fails but the
restart performed by the internal rollback succeeds. -/
def serverStartFailEnv : DeployEnv :=
  ⟨fun _ => false, 100, true, false, true, true, "1.0.0"⟩

/-- Environment in which the health-check phase of a deploy fails but the
restart performed by the internal rollback succeeds. -/
def healthFailEnv : DeployEnv :=
  ⟨fun _ => false, 7, true, true, true, false, "2.0.0"⟩

/-- A fresh deploy state: empty journal, no backups, no lock. -/
def emptyState : DeployState := ⟨[], none, [], none⟩

/-- A deploy state whose lock file records PID 42. -/
def busyState : DeployState := ⟨[], none, [], some 42⟩

/-- An environment in which PID 42 (the lock owner) is alive. -/
def busyEnv : DeployEnv := ⟨fun p => p == 42, 99, true, true, true, true, "1.0.0"⟩

/-- An environment in which every deployment phase succeeds. -/
def allOkEnv : DeployEnv := ⟨fun _ => false, 11, true, true, true, true, "3.0.0"⟩

/-! ### Process Supervisor: `scripts/ops/start.sh` -/

/-- Arguments of one `start.sh` invocation (after arg parsing). -/
structure StartArgs where
  mode : String
  build : Bool
  clean : Bool
  force : Bool
deriving Repr, DecidableEq

/-- The `watchdog.state` snapshot shape written by `start.sh`, `stop.sh`
and `watchdog-restart.sh` (host/port/timestamp fields omitted: they are
copied verbatim from the invocation and never branch). -/
structure Snapshot where
  port_status : String
  http_status : String
  healthy : Bool
  pid : Option Nat
  mode : String
  error : Option String
deriving Repr, DecidableEq

/-- Ambient facts of one `start.sh` run: `alive` is `kill -0`; `occupant`
the process already on the target port; `killOk` whether
`kill_process_gracefully` gets rid of it; `buildOk` the `npm run build`
outcome; `hasCurl` whether curl is installed; `listenPid` the PID
`find_process_on_port` reports once the launched server listens (none if it
never listens within the retry budget); `httpOk` whether the HTTP probe
would return 2xx/3xx. -/
structure StartEnv where
  alive : Nat → Bool
  selfPid : Nat
  occupant : Option Nat
  killOk : Bool
  buildOk : Bool
  hasCurl : Bool
  listenPid : Option Nat
  httpOk : Bool

/-- The files `start.sh` may touch: `clawsuite.lock`, `clawsuite.pid`,
`watchdog.state`. -/
structure StartFiles where
  lockFile : Option Nat
  pidFile : Option Nat
  stateFile : Option Snapshot
deriving Repr, DecidableEq

/-- Stale-PID-file cleanup at the end of `stop_existing` (start.sh lines
250-259): a PID file whose PID is dead is removed. -/
def stale_pid_cleanup (env : StartEnv) (fs : StartFiles) : StartFiles :=
  match fs.pidFile with
  | some r => if env.alive r then fs else { fs with pidFile := none }
  | none => fs

/-- Source function `stop_existing` (start.sh lines 230-262): a port occupant is killed
only under `--force` (failure of the kill is fatal); without `--force` an
occupied port is fatal.  Returns success plus the possibly cleaned files. -/
def stop_existing (args : StartArgs) (env : StartEnv) (fs : StartFiles) : Bool × StartFiles :=
  match env.occupant with
  | some _ =>
      if args.force then
        if env.killOk then (true, stale_pid_cleanup env fs) else (false, fs)
      else (false, fs)
  | none => (true, stale_pid_cleanup env fs)

/-- Source function `wait_for_healthy` (start.sh lines 295-338), collapsed over the
fixed-budget retry loop: yields the listening PID on success and whether
the curl HTTP probe was issued.  With curl installed, success additionally
requires a 2xx/3xx response; without curl the port being listened on is
accepted as healthy by itself. -/
def wait_for_healthy (env : StartEnv) : Option Nat × Bool :=
  match env.listenPid with
  | some pid =>
      if env.hasCurl then (if env.httpOk then (some pid, true) else (none, true))
      else (some pid, false)
  | none => (none, false)

/-- Source function `start_server` (start.sh lines 340-397): launch, wait for healthy, and
on success write the PID file and the `healthy=true` snapshot (with
`http_status` hard-coded to `healthy`).  Third component: whether an HTTP
probe was issued during the wait. -/
def start_server (args : StartArgs) (env : StartEnv) (fs : StartFiles) :
    Nat × StartFiles × Bool :=
  match wait_for_healthy env with
  | (some pid, probed) =>
      (0, { fs with
            pidFile := some pid,
            stateFile := some ⟨"listening", "healthy", true, some pid, args.mode, none⟩ },
        probed)
  | (none, probed) => (1, fs, probed)

/-- Source function `release_lock` (start.sh lines 174-176), run by the EXIT trap on every
path past lock acquisition. -/
def release_lock (fs : StartFiles) : StartFiles := { fs with lockFile := none }

/-- Source function `main` of start.sh after the lock is held (lines 412-443): port
reconcile, optional clean (no effect on the modelled files), optional
build, then server start; the EXIT trap releases the lock on every path. -/
def start_locked (args : StartArgs) (env : StartEnv) (fs : StartFiles) : Nat × StartFiles :=
  let r := stop_existing args env fs
  if r.1 then
    if args.mode = "preview" ∧ args.build = true ∧ env.buildOk = false then
      (1, release_lock r.2)
    else
      let r2 := start_server args env r.2
      (r2.1, release_lock r2.2.1)
  else (1, release_lock r.2)

/-- Source function `main` of start.sh (lines 402-445) with `acquire_lock` (lines 150-172)
inlined: a lock file whose recorded owner is alive is fatal with exit code
3 before anything else is touched; a stale lock is reclaimed (overwritten
with `$$`) and the run proceeds. -/
def start_main (args : StartArgs) (env : StartEnv) (fs : StartFiles) : Nat × StartFiles :=
  match fs.lockFile with
  | some p =>
      if env.alive p then (3, fs)
      else start_locked args env { fs with lockFile := some env.selfPid }
  | none => start_locked args env { fs with lockFile := some env.selfPid }

/-! ### Process Supervisor: `scripts/ops/stop.sh` -/

/-- Ambient facts of one `stop.sh` run: the process on the target port (if
any), whether the graceful TERM kill succeeds within the poll budget,
whether the KILL fallback (only under `--force`) succeeds, and the
`--force` flag. -/
structure StopEnv where
  portPid : Option Nat
  gracefulOk : Bool
  forceKillOk : Bool
  force : Bool

/-- The files `stop.sh` may touch: `watchdog.pid`, `clawsuite.pid`,
`clawsuite.lock`, `watchdog.state`. -/
structure StopFiles where
  watchdogPidFile : Option Nat
  pidFile : Option Nat
  lockFile : Option Nat
  stateFile : Option Snapshot
deriving Repr, DecidableEq

/-- The terminal snapshot stop.sh always writes (lines 157-169). -/
def stoppedSnapshot : Snapshot :=
  ⟨"not_listening", "unknown", false, none, "stopped", some "Service stopped"⟩

/-- Source function `stop_watchdog` (stop.sh lines 120-133): signal the recorded watchdog
daemon if alive and remove its PID file; a missing file stays missing. -/
def stop_watchdog (fs : StopFiles) : StopFiles :=
  { fs with watchdogPidFile := none }

/-- Source function `kill_process` (stop.sh lines 87-117): graceful TERM with polling, then
KILL only under `--force`. -/
def kill_process (env : StopEnv) : Bool :=
  if env.gracefulOk then true
  else if env.force then env.forceKillOk
  else false

/-- Tail of stop.sh (lines 152-173): remove PID and lock files and write
the terminal stopped snapshot, exiting 0. -/
def stop_finish (fs : StopFiles) : Nat × StopFiles :=
  (0, { fs with pidFile := none, lockFile := none, stateFile := some stoppedSnapshot })

/-- stop.sh main flow (lines 136-173): stop the watchdog, find the port
occupant; no occupant is success, an occupant must be killed (failure is
exit 1 before any file cleanup); then clean up files and write the
terminal snapshot. -/
def stop_main (env : StopEnv) (fs : StopFiles) : Nat × StopFiles :=
  let fs1 := stop_watchdog fs
  match env.portPid with
  | some _ => if kill_process env then stop_finish fs1 else (1, fs1)
  | none => stop_finish fs1

/-! ### Watchdog restart: `scripts/ops/watchdog-restart.sh` -/

/-- Ambient facts of the restart path: build outcome, whether the launched
process survives the wait window, the PID seen listening on the port within
that window, and — never consulted by this script — whether the app would
actually answer HTTP. -/
structure RestartEnv where
  buildOk : Bool
  launchSurvives : Bool
  listenPid : Option Nat
  httpOk : Bool

/-- The only modelled file the restart path writes: `watchdog.state`. -/
structure RestartFiles where
  stateFile : Option Snapshot
deriving Repr, DecidableEq

/-- Source function `start_server` of watchdog-restart.sh (lines 167-247), non-dry-run: in
preview mode build first (failure fatal); launch; within the wait window
fail if the process exits, and succeed as soon as some PID listens on the
port, immediately writing a snapshot with `http_status="healthy"` and
`healthy=true`.  No HTTP request is ever issued in this function; the third
component records that (it is constantly `false`). -/
def restart_start_server (mode : String) (env : RestartEnv) (fs : RestartFiles) :
    Nat × RestartFiles × Bool :=
  if mode = "preview" ∧ env.buildOk = false then (1, fs, false)
  else if env.launchSurvives then
    match env.listenPid with
    | some pid =>
        (0, { fs with
              stateFile := some ⟨"listening", "healthy", true, some pid, mode, none⟩ },
          false)
    | none => (1, fs, false)
  else (1, fs, false)

/-! ### Watchdog Daemon: `watchdog-daemon.sh` (embedded in
`docs/CLAWSUITE_RECOVERY_2026-02-15.md`) -/

/-- The loop-carried state of `daemon_loop` (lines 327-376 of the embedded
script): `consecutive_failures` and `last_failure_time` (epoch seconds). -/
structure WatchdogState where
  consecutiveFailures : Nat
  lastFailureTime : Nat
deriving Repr, DecidableEq

/-- One pass through the body of the `while true` loop of `daemon_loop`, with
`MAX_FAILURES=3` and `FAILURE_RESET_AFTER=300`.  `none` means the shell
exited instead of completing the iteration: the script runs under
`set -euo pipefail` and backgrounds `daemon_loop &` (errexit is inherited
by the background subshell), and the bare arithmetic command
`((consecutive_failures++))` returns status 1 exactly when its
pre-increment value — after the decay-window reset — is 0, which
terminates the daemon.  On a healthy check the counter resets; on an
unhealthy check the counter is reset first if strictly more than 300
seconds passed since the last recorded failure, then incremented, and at 3
or more the restart path runs, resetting the counter on success only. -/
def daemon_iteration (healthy restartOk : Bool) (now : Nat) (w : WatchdogState) :
    Option WatchdogState :=
  if healthy then some { w with consecutiveFailures := 0 }
  else
    let c0 := if now - w.lastFailureTime > 300 then 0 else w.consecutiveFailures
    if c0 = 0 then none
    else
      let c1 := c0 + 1
      if c1 ≥ 3 then
        if restartOk then some ⟨0, now⟩ else some ⟨c1, now⟩
      else some ⟨c1, now⟩

/-! ### Git-based Rollback: `scripts/ops/rollback.sh` (leading section) -/

/-- Arguments of one git-rollback invocation (after arg parsing):
`--to`, `--steps` (default 1), `--mode`, `--dry-run`, `--force`. -/
structure GitArgs where
  targetRef : Option String
  steps : Nat
  mode : String
  dryRun : Bool
  force : Bool

/-- Ambient repository facts one git-rollback run observes: how
`git rev-parse` resolves an explicit ref or a first-parent ancestor
`HEAD~N`, the current HEAD, whether the working tree has uncommitted
modifications, and the outcomes of the external steps. -/
structure GitEnv where
  resolveRef : String → Option String
  resolveAncestor : Nat → Option String
  currentRef : String
  dirty : Bool
  npmCiOk : Bool
  buildOk : Bool
  startOk : Bool
  healthOk : Bool

/-- What one git-rollback run did: its exit code, the final HEAD, which
mutating steps ran (server stop, checkout, build, restart), and the status
recorded in `rollback.state` (if written). -/
structure GitResult where
  exitCode : Nat
  head : String
  stopped : Bool
  checkedOut : Bool
  ranBuild : Bool
  started : Bool
  stateFile : Option String
deriving Repr, DecidableEq

/-- Target resolution (rollback.sh lines 77-82): an explicit `--to REF` via
`git rev-parse REF`, otherwise the first-parent ancestor `HEAD~STEPS`. -/
def resolve_target (a : GitArgs) (env : GitEnv) : Option String :=
  match a.targetRef with
  | some r => env.resolveRef r
  | none => env.resolveAncestor a.steps

/-- The git-rollback script (rollback.sh lines 64-151): validate mode and
steps (exit 2), resolve the target (exit 2 when unresolvable), no-op exit 0
when the target equals HEAD, refuse (exit 1, nothing done) on a dirty tree
without `--force`, print-only under `--dry-run`; otherwise stop the server,
`git checkout --force` the target, `npm ci`, build in preview mode, restart
(each failure aborts with a non-zero exit under `set -e`), then verify
health, recording `failed` (exit 1) or `ok` (exit 0) in the rollback state
file. -/
def git_rollback (a : GitArgs) (env : GitEnv) : GitResult :=
  let noact : GitResult := ⟨0, env.currentRef, false, false, false, false, none⟩
  if ¬(a.mode = "dev" ∨ a.mode = "preview") then { noact with exitCode := 2 }
  else if a.steps = 0 then { noact with exitCode := 2 }
  else
    match resolve_target a env with
    | none => { noact with exitCode := 2 }
    | some tgt =>
        if env.currentRef = tgt then noact
        else if env.dirty = true ∧ a.force = false then { noact with exitCode := 1 }
        else if a.dryRun then noact
        else
          let rb := a.mode == "preview"
          if env.npmCiOk = false then ⟨1, tgt, true, true, false, false, none⟩
          else if a.mode = "preview" ∧ env.buildOk = false then
            ⟨1, tgt, true, true, true, false, none⟩
          else if env.startOk = false then ⟨1, tgt, true, true, rb, true, none⟩
          else if env.healthOk = false then ⟨1, tgt, true, true, rb, true, some "failed"⟩
          else ⟨0, tgt, true, true, rb, true, some "ok"⟩

/-- A repository where `HEAD~1` resolves to the current HEAD itself is not
constructible in git; the interesting no-op input is an explicit
`--to` naming the current commit.  Dirty tree, target = current HEAD. -/
def dirtyNoopEnv : GitEnv :=
  ⟨fun r => if r = "v1" then some "commit0" else none,
   fun n => if n = 1 then some "parent0" else none,
   "commit0", true, true, true, true, true⟩

/-- Dirty tree, resolvable target different from the current HEAD. -/
def dirtyEnv : GitEnv :=
  ⟨fun _ => none, fun n => if n = 1 then some "commit1" else none,
   "commit9", true, true, true, true, true⟩

/-- Files with a lock owned by PID 42 and a PID file for PID 7. -/
def lockedFiles : StartFiles := ⟨some 42, some 7, none⟩

/-- A start environment in which the lock owner PID 42 is alive. -/
def liveStartEnv : StartEnv := ⟨fun p => p == 42, 9, none, true, true, true, some 5, true⟩

/-- A start environment in which no process (lock owner included) is
alive; the launched server ends up listening as PID 5. -/
def deadStartEnv : StartEnv := ⟨fun _ => false, 9, none, true, true, true, some 5, true⟩

/-- The default start invocation: preview mode, build, no clean, no force. -/
def defaultArgs : StartArgs := ⟨"preview", true, false, false⟩

/-- A start environment without curl whose server listens as PID 33 but
would fail an HTTP probe — nobody asks. -/
def noCurlStartEnv : StartEnv := ⟨fun _ => false, 9, none, true, true, false, some 33, false⟩

/-- Start files with nothing on disk. -/
def emptyStartFiles : StartFiles := ⟨none, none, none⟩

/-- A restart environment whose server comes up listening as PID 21 but
would fail an HTTP probe — nobody asks here either. -/
def restartEnvOk : RestartEnv := ⟨true, true, some 21, false⟩

/-- A stop environment with nothing on the target port. -/
def idleStopEnv : StopEnv := ⟨none, true, true, false⟩

/-- Stop files with every file present before the stop. -/
def fullStopFiles : StopFiles :=
  ⟨some 3, some 4, some 5, some ⟨"listening", "healthy", true, some 4, "preview", none⟩⟩

/-! ### Helper lemmas -/

/-- Appending a `success` entry makes it the last successful transaction. -/
theorem get_last_snoc_success (j : List Entry) (e : Entry)
    (he : e.status = TxStatus.success) :
    get_last_successful_tx (j ++ [e]) = some e.tx_id := by
  simp [get_last_successful_tx, List.find?, he]

/-- Appending a non-`success` entry leaves the last successful transaction
unchanged. -/
theorem get_last_snoc_fail (j : List Entry) (e : Entry)
    (he : e.status ≠ TxStatus.success) :
    get_last_successful_tx (j ++ [e]) = get_last_successful_tx j := by
  simp only [get_last_successful_tx, List.reverse_append, List.reverse_cons,
    List.reverse_nil, List.nil_append, List.cons_append, List.find?]
  have hb : (e.status == TxStatus.success) = false := by
    simp [he]
  simp [hb]

/-- The two entries a failed server-start phase appends contain no
`success` status, so the last successful transaction is unchanged. -/
theorem get_last_server_fail_tail (j : List Entry) (tx : String) :
    get_last_successful_tx (j ++ [⟨tx, "server_start", TxStatus.started⟩,
      ⟨tx, "server_start", TxStatus.failed⟩]) = get_last_successful_tx j := by
  have hsplit : j ++ [(⟨tx, "server_start", TxStatus.started⟩ : Entry),
      ⟨tx, "server_start", TxStatus.failed⟩] =
      (j ++ [⟨tx, "server_start", TxStatus.started⟩]) ++
        [⟨tx, "server_start", TxStatus.failed⟩] := by simp
  rw [hsplit, get_last_snoc_fail _ _ (by simp), get_last_snoc_fail _ _ (by simp)]

/-- After a failed health-check phase the most recent `success` entry is
this transaction's own `server_start` success line. -/
theorem get_last_health_fail_tail (j : List Entry) (tx : String) :
    get_last_successful_tx (j ++ [⟨tx, "server_start", TxStatus.started⟩,
      ⟨tx, "server_start", TxStatus.success⟩,
      ⟨tx, "health_check", TxStatus.failed⟩]) = some tx := by
  have hsplit : j ++ [(⟨tx, "server_start", TxStatus.started⟩ : Entry),
      ⟨tx, "server_start", TxStatus.success⟩, ⟨tx, "health_check", TxStatus.failed⟩] =
      ((j ++ [⟨tx, "server_start", TxStatus.started⟩]) ++
        [⟨tx, "server_start", TxStatus.success⟩]) ++
        [⟨tx, "health_check", TxStatus.failed⟩] := by simp
  rw [hsplit, get_last_snoc_fail _ _ (by simp), get_last_snoc_success _ _ rfl]

/-- Whenever the server-start or health-check phase fails (with the build
succeeding when requested), the internal rollback resolves the failing
transaction itself as its target — its own `backup_created` (or
`server_start`) success entry is the most recent `status=success` line —
and on a successful restart CurrentState becomes `rolled_back` pointing at
that same transaction. -/
theorem deploy_after_build_rolls_back (opts : DeployOpts) (env : DeployEnv)
    (s : DeployState) (tx : String)
    (hrestart : env.restartOk = true)
    (hmem : tx ∈ s.backups)
    (hlast : get_last_successful_tx s.journal = some tx)
    (hfail : env.startOk = false ∨ (opts.healthCheck = true ∧ env.healthOk = false)) :
    (deploy_after_build opts env s tx).1 = 1 ∧
    (deploy_after_build opts env s tx).2.current = some ⟨"rolled_back", tx, env.appVersion⟩ := by
  cases hso : env.startOk with
  | false =>
      have h1 : get_last_successful_tx
          (s.journal ++ [⟨tx, "server_start", TxStatus.started⟩,
            ⟨tx, "server_start", TxStatus.failed⟩]) = some tx := by
        rw [get_last_server_fail_tail]; exact hlast
      simp [deploy_after_build, hso, cmd_rollback_internal, journal_append, h1,
        hmem, hrestart, update_current_state, unlock]
  | true =>
      rcases hfail with h | ⟨hhc, hho⟩
      · rw [hso] at h; simp at h
      · have h1 : get_last_successful_tx
            (s.journal ++ [⟨tx, "server_start", TxStatus.started⟩,
              ⟨tx, "server_start", TxStatus.success⟩,
              ⟨tx, "health_check", TxStatus.failed⟩]) = some tx :=
          get_last_health_fail_tail s.journal tx
        simp [deploy_after_build, hso, hhc, hho, cmd_rollback_internal, journal_append, h1,
          hmem, hrestart, update_current_state, unlock]

/-! ### Claim theorems -/

/-- Claim C3: whenever the TCP reachability test fails (returns non-zero),
the resulting HealthState has portStatus `not_listening`, httpStatus
`unknown`, `healthy = false`, a non-null error and no PID, and the HTTP
probe is never attempted. -/
theorem health_check_port_down (e : HealthEnv) (host : String) (port : Nat)
    (h : check_port_listening e ≠ 0) :
    (perform_health_check e host port).state.port_status = "not_listening" ∧
    (perform_health_check e host port).state.http_status = "unknown" ∧
    (perform_health_check e host port).state.healthy = false ∧
    (perform_health_check e host port).state.error.isSome = true ∧
    (perform_health_check e host port).state.pid = none ∧
    (perform_health_check e host port).httpProbed = false := by
  simp [perform_health_check, h]

/-- Witness for C3 at a concrete environment: all tools present but the
port closed, so the port test returns 1. -/
theorem health_check_port_down_witness :
    check_port_listening portDownEnv ≠ 0 ∧
    ((perform_health_check portDownEnv "localhost" 4173).state.port_status = "not_listening" ∧
      (perform_health_check portDownEnv "localhost" 4173).state.http_status = "unknown" ∧
      (perform_health_check portDownEnv "localhost" 4173).state.healthy = false ∧
      (perform_health_check portDownEnv "localhost" 4173).state.error.isSome = true ∧
      (perform_health_check portDownEnv "localhost" 4173).state.pid = none ∧
      (perform_health_check portDownEnv "localhost" 4173).httpProbed = false) :=
  ⟨by decide, health_check_port_down portDownEnv "localhost" 4173 (by decide)⟩

/-- Claim C2 (code bug): with no port-inspection tool available,
`check_port_listening` returns the distinct tooling-error status 2, but the
caller's `if` collapses it into the failure branch, so the run is reported
as an ordinary unhealthy verdict: exit code 1 with portStatus
`not_listening` — exactly what the claim (and the script's own exit-code
documentation) says must never happen. -/
theorem health_check_tooling_collapsed :
    check_port_listening noToolEnv = 2 ∧
    (perform_health_check noToolEnv "localhost" 4173).exitCode = 1 ∧
    (perform_health_check noToolEnv "localhost" 4173).state.port_status = "not_listening" :=
  ⟨rfl, rfl, rfl⟩

/-- Claim C1, counterexample: starting from a journal whose most recent
`status=success` entry before the new attempt belongs to transaction
`tx-A`, a deploy of `tx-B` whose server-start phase fails rolls back to a
CurrentState referencing `tx-B` itself — not `tx-A` as the claim requires —
because the failed attempt's own `backup_created` success entry is found
first by the backward scan. -/
theorem deploy_rollback_target_cex :
    get_last_successful_tx stateAfterA.journal = some "tx-A" ∧
    (cmd_deploy ⟨false, true⟩ serverStartFailEnv stateAfterA "tx-B").2.current =
      some ⟨"rolled_back", "tx-B", "1.0.0"⟩ ∧
    "tx-B" ≠ "tx-A" := by decide

/-- Claim C1 (amended): after a deploy whose server-start or health-check
phase fails (build succeeding when requested, lock free, restore and
restart succeeding), the automatic internal rollback targets the most
recent `status=success` journal entry at rollback time — which is an entry
written by the failed attempt itself (`backup_created` or `server_start`),
so CurrentState becomes `rolled_back` referencing the failed deploy's own
transaction id, whose backup is the pre-deploy snapshot taken at the start
of that attempt; the deploy exits 1. -/
theorem deploy_auto_rollback_references_own_tx (opts : DeployOpts) (env : DeployEnv)
    (s : DeployState) (tx : String)
    (hlock : lock_busy env s = false)
    (hbuild : env.buildOk = true)
    (hrestart : env.restartOk = true)
    (hfail : env.startOk = false ∨ (opts.healthCheck = true ∧ env.healthOk = false)) :
    (cmd_deploy opts env s tx).1 = 1 ∧
    (cmd_deploy opts env s tx).2.current = some ⟨"rolled_back", tx, env.appVersion⟩ := by
  cases hpb : opts.preBuild with
  | false =>
      simp only [cmd_deploy, hlock, Bool.false_eq_true, if_false, hpb]
      refine deploy_after_build_rolls_back opts env _ tx hrestart ?_ ?_ hfail
      · simp [journal_append, update_current_state]
      · simp only [journal_append, update_current_state]
        exact get_last_snoc_success _ _ rfl
  | true =>
      simp only [cmd_deploy, hlock, Bool.false_eq_true, if_false, hpb, hbuild, if_true]
      refine deploy_after_build_rolls_back opts env _ tx hrestart ?_ ?_ hfail
      · simp [journal_append, update_current_state]
      · simp only [journal_append, update_current_state]
        exact get_last_snoc_success _ _ rfl

/-- Witness for the amended C1 theorem: fresh environment, pre-build deploy
whose health check fails; CurrentState ends `rolled_back` at the failed
transaction's own id. -/
theorem deploy_auto_rollback_witness :
    (lock_busy healthFailEnv emptyState = false ∧ healthFailEnv.buildOk = true ∧
      healthFailEnv.restartOk = true ∧ healthFailEnv.healthOk = false) ∧
    ((cmd_deploy ⟨true, true⟩ healthFailEnv emptyState "tx-W").1 = 1 ∧
      (cmd_deploy ⟨true, true⟩ healthFailEnv emptyState "tx-W").2.current =
        some ⟨"rolled_back", "tx-W", "2.0.0"⟩) :=
  ⟨⟨rfl, rfl, rfl, rfl⟩,
    deploy_auto_rollback_references_own_tx ⟨true, true⟩ healthFailEnv emptyState "tx-W"
      rfl rfl rfl (Or.inr ⟨rfl, rfl⟩)⟩

/-- Claim C5, counterexample: with the deploy lock held by live PID 42, a
manual rollback does not fail fast — it appends two `manual_rollback`
journal entries (it never reads the lock at all), refuting the claimed
mutual exclusion of deploy and manual rollback. -/
theorem manual_rollback_ignores_lock_cex :
    lock_busy busyEnv busyState = true ∧
    (cmd_rollback ⟨none, false⟩ busyEnv busyState "tx-R").2.journal =
      [⟨"tx-R", "manual_rollback", TxStatus.started⟩,
       ⟨"tx-R", "manual_rollback", TxStatus.failed⟩] ∧
    busyState.journal = [] := by decide

/-- Claim C5 (amended): the deploy lock mutually excludes two deploys — a
deploy observing the lock held by a live owner exits 1 having mutated
nothing (journal, CurrentState, backups, lock and hence the server are all
untouched); a manual rollback neither takes nor checks the deploy lock and
is not excluded by it. -/
theorem deploy_lock_excludes_deploy (opts : DeployOpts) (env : DeployEnv)
    (s : DeployState) (tx : String) (h : lock_busy env s = true) :
    cmd_deploy opts env s tx = (1, s) := by
  simp [cmd_deploy, h]

/-- Witness for the amended C5 theorem at the concrete locked state. -/
theorem deploy_lock_excludes_deploy_witness :
    lock_busy busyEnv busyState = true ∧
    cmd_deploy ⟨true, true⟩ busyEnv busyState "tx-C" = (1, busyState) :=
  ⟨by decide, deploy_lock_excludes_deploy ⟨true, true⟩ busyEnv busyState "tx-C" (by decide)⟩

/-- One fully successful deploy prunes the backups to the 5 newest
directories (the new one first) and leaves the deploy lock released. -/
theorem deploy_success_step (opts : DeployOpts) (env : DeployEnv) (s : DeployState) (tx : String)
    (hlock : lock_busy env s = false)
    (hb : env.buildOk = true) (hs : env.startOk = true) (hh : env.healthOk = true) :
    (cmd_deploy opts env s tx).2.backups = (tx :: s.backups).take 5 ∧
    (cmd_deploy opts env s tx).2.lock = none := by
  cases hpb : opts.preBuild <;> cases hhc : opts.healthCheck <;>
    simp [cmd_deploy, deploy_after_build, deploy_commit, journal_append,
      update_current_state, unlock, hlock, hb, hs, hh, hpb, hhc]

/-- A prefix that is already truncated to 5 does not change a `take 5`. -/
theorem take_five_append (l m : List String) :
    (l ++ m.take 5).take 5 = (l ++ m).take 5 := by
  rw [List.take_append_eq_append_take, List.take_append_eq_append_take, List.take_take,
    Nat.min_eq_left (Nat.sub_le _ _)]

/-- Invariant of iterated successful deploys: the backups on disk are the
5 newest among the transactions deployed so far (newest first) followed by
whatever initial backups still fit, and the lock ends released. -/
theorem deploy_seq_backups (opts : DeployOpts) (env : DeployEnv)
    (hb : env.buildOk = true) (hs : env.startOk = true) (hh : env.healthOk = true)
    (txs : List String) :
    ∀ s : DeployState, s.lock = none → s.backups.length ≤ 5 →
      (deploy_seq opts env txs s).backups = (txs.reverse ++ s.backups).take 5 ∧
      (deploy_seq opts env txs s).lock = none := by
  induction txs with
  | nil =>
      intro s hl hlen
      exact ⟨(List.take_of_length_le hlen).symm, hl⟩
  | cons t rest ih =>
      intro s hl hlen
      have hlock : lock_busy env s = false := by simp [lock_busy, hl]
      have hstep := deploy_success_step opts env s t hlock hb hs hh
      have hseq : deploy_seq opts env (t :: rest) s =
          deploy_seq opts env rest (cmd_deploy opts env s t).2 := rfl
      have hlen2 : (cmd_deploy opts env s t).2.backups.length ≤ 5 := by
        rw [hstep.1, List.length_take]
        exact Nat.min_le_left _ _
      have := ih (cmd_deploy opts env s t).2 hstep.2 hlen2
      constructor
      · rw [hseq, this.1, hstep.1, take_five_append, List.reverse_cons, List.append_assoc]
        simp
      · rw [hseq]
        exact this.2

/-- Claim C8: a successful deploy prunes the backup directories to exactly
the 5 most recent ones (the fresh transaction plus the 4 next-newest), and
iterating N > 5 successful deploys from an empty backup store leaves
exactly 5 directories: those of the 5 most recent transaction ids. -/
theorem backup_retention (opts : DeployOpts) (env : DeployEnv)
    (txs : List String) (s s1 : DeployState) (tx1 : String)
    (hb : env.buildOk = true) (hs : env.startOk = true) (hh : env.healthOk = true)
    (h1lock : lock_busy env s1 = false)
    (hlock : s.lock = none) (hbk : s.backups = [])
    (hn : 5 < txs.length) :
    (cmd_deploy opts env s1 tx1).2.backups = (tx1 :: s1.backups).take 5 ∧
    (deploy_seq opts env txs s).backups = txs.reverse.take 5 ∧
    (deploy_seq opts env txs s).backups.length = 5 := by
  have hmain := deploy_seq_backups opts env hb hs hh txs s hlock (by rw [hbk]; simp)
  have hfull : (deploy_seq opts env txs s).backups = txs.reverse.take 5 := by
    rw [hmain.1, hbk]
    simp
  refine ⟨(deploy_success_step opts env s1 tx1 h1lock hb hs hh).1, hfull, ?_⟩
  rw [hfull, List.length_take, List.length_reverse]
  exact Nat.min_eq_left (Nat.le_of_lt hn)

/-- Witness for C8: six successful deploys from a fresh store leave the 5
most recent backup directories. -/
theorem backup_retention_witness :
    (allOkEnv.buildOk = true ∧ allOkEnv.startOk = true ∧ allOkEnv.healthOk = true ∧
      lock_busy allOkEnv emptyState = false ∧ emptyState.lock = none ∧
      emptyState.backups = [] ∧
      5 < (["t1", "t2", "t3", "t4", "t5", "t6"] : List String).length) ∧
    ((cmd_deploy ⟨false, false⟩ allOkEnv emptyState "t0").2.backups =
        ("t0" :: emptyState.backups).take 5 ∧
      (deploy_seq ⟨false, false⟩ allOkEnv ["t1", "t2", "t3", "t4", "t5", "t6"]
        emptyState).backups = ["t6", "t5", "t4", "t3", "t2"] ∧
      (deploy_seq ⟨false, false⟩ allOkEnv ["t1", "t2", "t3", "t4", "t5", "t6"]
        emptyState).backups.length = 5) := by
  refine ⟨⟨rfl, rfl, rfl, rfl, rfl, rfl, by decide⟩, ?_⟩
  have := backup_retention ⟨false, false⟩ allOkEnv ["t1", "t2", "t3", "t4", "t5", "t6"]
    emptyState emptyState "t0" rfl rfl rfl rfl rfl rfl (by decide)
  exact ⟨this.1, by rw [this.2.1]; decide, this.2.2⟩

/-- Claim C6: a start invocation observing a lock file whose recorded
owner is alive exits with code 3 leaving every file — lock, PID file,
HealthState file — exactly as it found them; if the recorded owner is
dead the stale lock is reclaimed (overwritten with the invoker's PID) and
the run proceeds identically to a run that found no lock. -/
theorem start_lock_contention (args : StartArgs) (env : StartEnv) (fs : StartFiles) (p : Nat)
    (hl : fs.lockFile = some p) :
    (env.alive p = true → start_main args env fs = (3, fs)) ∧
    (env.alive p = false →
      start_main args env fs =
        start_locked args env { fs with lockFile := some env.selfPid }) := by
  constructor <;> intro h <;> simp [start_main, hl, h]

/-- Witness for C6: with owner 42 alive the run exits 3 untouched; with
every process dead the stale lock is reclaimed and the run proceeds. -/
theorem start_lock_contention_witness :
    lockedFiles.lockFile = some 42 ∧
    start_main defaultArgs liveStartEnv lockedFiles = (3, lockedFiles) ∧
    start_main defaultArgs deadStartEnv lockedFiles =
      start_locked defaultArgs deadStartEnv { lockedFiles with lockFile := some 9 } :=
  ⟨rfl,
    (start_lock_contention defaultArgs liveStartEnv lockedFiles 42 rfl).1 rfl,
    (start_lock_contention defaultArgs deadStartEnv lockedFiles 42 rfl).2 rfl⟩

/-- Claim C7: a stop invocation finding no process on the target port
exits 0, removes the watchdog PID file, the PID file and the lock file,
and writes the terminal stopped snapshot (`healthy=false, mode=stopped`);
a second stop right after does exactly the same and also exits 0 — stop is
idempotent. -/
theorem stop_idempotent (env env2 : StopEnv) (fs : StopFiles)
    (h : env.portPid = none) (h2 : env2.portPid = none) :
    stop_main env fs = (0, ⟨none, none, none, some stoppedSnapshot⟩) ∧
    stop_main env2 (stop_main env fs).2 = (0, ⟨none, none, none, some stoppedSnapshot⟩) := by
  have e1 : stop_main env fs = (0, ⟨none, none, none, some stoppedSnapshot⟩) := by
    simp [stop_main, stop_watchdog, stop_finish, h]
  have e2 : stop_main env2 (⟨none, none, none, some stoppedSnapshot⟩ : StopFiles) =
      (0, ⟨none, none, none, some stoppedSnapshot⟩) := by
    simp [stop_main, stop_watchdog, stop_finish, h2]
  refine ⟨e1, ?_⟩
  rw [e1]
  exact e2

/-- Witness for C7 at a concrete idle environment with all files present. -/
theorem stop_idempotent_witness :
    idleStopEnv.portPid = none ∧
    (stop_main idleStopEnv fullStopFiles = (0, ⟨none, none, none, some stoppedSnapshot⟩) ∧
      stop_main idleStopEnv (stop_main idleStopEnv fullStopFiles).2 =
        (0, ⟨none, none, none, some stoppedSnapshot⟩)) :=
  ⟨rfl, stop_idempotent idleStopEnv idleStopEnv fullStopFiles rfl rfl⟩

/-- Claim C10: the watchdog restart path commits a success snapshot with
`http_status="healthy"` and `healthy=true` as soon as some PID listens on
the port, performing no HTTP probe (third component false, and the
environment's actual HTTP health is unconstrained); the start path commits
the same port-only snapshot when curl is unavailable.  A snapshot saying
`http_status = "healthy"` therefore does not imply an HTTP check ran. -/
theorem port_only_healthy_snapshots (mode : String) (env : RestartEnv) (fs : RestartFiles)
    (pid : Nat) (args : StartArgs) (senv : StartEnv) (sfs : StartFiles) (spid : Nat)
    (hbuild : env.buildOk = true) (hsurv : env.launchSurvives = true)
    (hlisten : env.listenPid = some pid)
    (hcurl : senv.hasCurl = false) (hslisten : senv.listenPid = some spid) :
    restart_start_server mode env fs =
      (0, { fs with
            stateFile := some ⟨"listening", "healthy", true, some pid, mode, none⟩ },
        false) ∧
    start_server args senv sfs =
      (0, { sfs with
            pidFile := some spid,
            stateFile := some ⟨"listening", "healthy", true, some spid, args.mode, none⟩ },
        false) := by
  constructor
  · simp [restart_start_server, hbuild, hsurv, hlisten]
  · simp [start_server, wait_for_healthy, hcurl, hslisten]

/-- Witness for C10: both environments would fail an HTTP probe
(`httpOk = false`), yet both snapshots record `http_status="healthy"`. -/
theorem port_only_healthy_snapshots_witness :
    (restartEnvOk.buildOk = true ∧ restartEnvOk.launchSurvives = true ∧
      restartEnvOk.listenPid = some 21 ∧ restartEnvOk.httpOk = false ∧
      noCurlStartEnv.hasCurl = false ∧ noCurlStartEnv.listenPid = some 33 ∧
      noCurlStartEnv.httpOk = false) ∧
    (restart_start_server "preview" restartEnvOk ⟨none⟩ =
        (0, ⟨some ⟨"listening", "healthy", true, some 21, "preview", none⟩⟩, false) ∧
      start_server defaultArgs noCurlStartEnv emptyStartFiles =
        (0, ⟨none, some 33, some ⟨"listening", "healthy", true, some 33, "preview", none⟩⟩,
          false)) :=
  ⟨⟨rfl, rfl, rfl, rfl, rfl, rfl, rfl⟩,
    port_only_healthy_snapshots "preview" restartEnvOk ⟨none⟩ 21 defaultArgs noCurlStartEnv
      emptyStartFiles 33 rfl rfl rfl rfl rfl⟩

/-- Claim C4 (code bug): the daemon loop can never complete an unhealthy
iteration whose failure counter is 0 — the first unhealthy check of any
streak, in particular the very first one.  The bare arithmetic command
incrementing the counter returns status 1 when the pre-increment value is
0, and under `set -euo pipefail` (inherited by the backgrounded
`daemon_loop`) this terminates the daemon, so the counter never reaches the
threshold 3 and the restart path is unreachable from the daemon loop. -/
theorem watchdog_daemon_dies_on_first_failure (restartOk : Bool) (now : Nat)
    (w : WatchdogState) (h0 : w.consecutiveFailures = 0) :
    daemon_iteration false restartOk now w = none := by
  simp [daemon_iteration, h0]

/-- Witness for C4: fresh daemon state, first unhealthy check at second
1000 — the iteration aborts the daemon. -/
theorem watchdog_daemon_dies_witness :
    (⟨0, 0⟩ : WatchdogState).consecutiveFailures = 0 ∧
    daemon_iteration false true 1000 ⟨0, 0⟩ = none :=
  ⟨rfl, watchdog_daemon_dies_on_first_failure true 1000 ⟨0, 0⟩ rfl⟩

/-- Claim C9, counterexample: with a dirty working tree, no `--force`, and
an explicit target resolving to the current HEAD, the script exits 0 (the
no-op success test at line 89 runs before the dirty-tree guard at line 99),
refuting the claim that every dirty-tree run without `--force` exits with
failure. -/
theorem git_rollback_dirty_noop_cex :
    dirtyNoopEnv.dirty = true ∧
    (git_rollback ⟨some "v1", 1, "preview", false, false⟩ dirtyNoopEnv).exitCode = 0 ∧
    (git_rollback ⟨some "v1", 1, "preview", false, false⟩ dirtyNoopEnv).head =
      dirtyNoopEnv.currentRef := by decide

/-- Claim C9 (amended): for every git-rollback invocation with a valid
mode and step count, whose target resolves and differs from the current
HEAD, a dirty working tree without `--force` makes the run exit 1 before
any mutation: no server stop, no checkout, no build, no restart, no state
file written, and HEAD unchanged. -/
theorem git_rollback_dirty_guard (a : GitArgs) (env : GitEnv) (tgt : String)
    (hm : a.mode = "dev" ∨ a.mode = "preview")
    (hsteps : a.steps ≠ 0)
    (hres : resolve_target a env = some tgt)
    (hne : env.currentRef ≠ tgt)
    (hd : env.dirty = true) (hf : a.force = false) :
    git_rollback a env = ⟨1, env.currentRef, false, false, false, false, none⟩ := by
  simp [git_rollback, hm, hsteps, hres, hne, hd, hf]

/-- Witness for the amended C9 theorem: dirty tree, rollback by one step
to a commit different from HEAD. -/
theorem git_rollback_dirty_guard_witness :
    (resolve_target ⟨none, 1, "preview", false, false⟩ dirtyEnv = some "commit1" ∧
      dirtyEnv.currentRef ≠ "commit1" ∧ dirtyEnv.dirty = true) ∧
    git_rollback ⟨none, 1, "preview", false, false⟩ dirtyEnv =
      ⟨1, "commit9", false, false, false, false, none⟩ :=
  ⟨⟨rfl, by decide, rfl⟩,
    git_rollback_dirty_guard ⟨none, 1, "preview", false, false⟩ dirtyEnv "commit1"
      (Or.inr rfl) (by decide) rfl (by decide) rfl rfl⟩

end ClawSuite
